import Mathlib

/-!
# Verification of SWE-agent model/run/command logic

Shallow embedding of the relevant parts of `sweagent/agent/models.py`,
`sweagent/agent/commands.py` and `run.py`, together with theorems settling
the specification claims about them.

Python floats are modelled as exact rationals (`ℚ`); Python ints as `ℕ`;
raised exceptions as `Except`/`Option` error values; ordered `dict`s as
association lists.
-/

namespace SweAgent

/-! ## `APIStats` and `BaseModel` statistics (models.py 36-167) -/

/-- `APIStats` dataclass (models.py 36-42). Monetary fields are floats in the
source, modelled as exact rationals. -/
structure APIStats where
  total_cost : ℚ := 0
  instance_cost : ℚ := 0
  tokens_sent : ℕ := 0
  tokens_received : ℕ := 0
  api_calls : ℕ := 0


/-- The two `CostLimitExceededError` raises inside `update_stats`
(models.py 153-163): the total-cost check fires first. -/
inductive CostLimitKind where
  | total
  | perInstance


/-- `BaseModel.reset_stats` (models.py 109-114): with no argument, keep only
`total_cost` and zero the rest; with an argument, adopt it wholesale. -/
def reset_stats (stats : APIStats) (other : Option APIStats) : APIStats :=
  match other with
  | none => { total_cost := stats.total_cost }
  | some o => o

/-- `BaseModel.update_stats` (models.py 116-164).  Inputs: the metadata cost
rates, the two configured limits (`ModelArguments`, models.py 28-29), the
current statistics and the token counts.  The statistics mutation happens
before the limit checks, so the updated statistics are returned together
with either the computed cost or the raised `CostLimitExceededError`.
The Python chained comparison `0 < limit <= value` is `0 < limit ∧ limit ≤ value`. -/
def update_stats (cost_per_input_token cost_per_output_token : ℚ)
    (total_cost_limit per_instance_cost_limit : ℚ)
    (stats : APIStats) (input_tokens output_tokens : ℕ) :
    APIStats × Except CostLimitKind ℚ :=
  let cost := cost_per_input_token * input_tokens + cost_per_output_token * output_tokens
  let stats' : APIStats :=
    { total_cost := stats.total_cost + cost
      instance_cost := stats.instance_cost + cost
      tokens_sent := stats.tokens_sent + input_tokens
      tokens_received := stats.tokens_received + output_tokens
      api_calls := stats.api_calls + 1 }
  if 0 < total_cost_limit ∧ total_cost_limit ≤ stats'.total_cost then
    (stats', .error .total)
  else if 0 < per_instance_cost_limit ∧ per_instance_cost_limit ≤ stats'.instance_cost then
    (stats', .error .perInstance)
  else
    (stats', .ok cost)

/-! ## Model metadata and the OpenAI query error path (models.py 62-67, 170-276) -/

/-- One entry of a `MODELS` metadata table (e.g. models.py 171-212).  The
Anthropic/Bedrock tables additionally carry generation-length keys
(`max_tokens`, `max_tokens_to_sample`), kept as optional fields. -/
structure Metadata where
  max_context : ℕ
  cost_per_input_token : ℚ
  cost_per_output_token : ℚ
  max_tokens : Option ℕ := none
  max_tokens_to_sample : Option ℕ := none


/-- The two error classes declared in models.py 62-67.
`ContextWindowExceededError` (models.py 62-63) is declared in the source but
never raised anywhere in it. -/
inductive ModelError where
  | contextWindowExceeded (msg : String)
  | costLimitExceeded (msg : String)


/-- Message of the `CostLimitExceededError` raised by `update_stats`
(models.py 157 and 163). -/
def costLimitMessage : CostLimitKind → String
  | .total => "Total cost limit exceeded"
  | .perInstance => "Instance cost limit exceeded"

/-- A successful chat-completions response, reduced to the fields the code
reads (models.py 273-276). -/
structure APIResponse where
  prompt_tokens : ℕ
  completion_tokens : ℕ
  content : String

/-- One (un-retried) attempt of `OpenAIModel.query` (models.py 258-276), as a
function of the outcome of the underlying API call: a `BadRequestError`
(`.error ()`) is caught and re-raised as
`CostLimitExceededError(f"Context window ({max_context} tokens) exceeded")`
(models.py 270-271); on success `update_stats` runs and its
`CostLimitExceededError` propagates. -/
def openAIQueryStep (meta : Metadata)
    (total_cost_limit per_instance_cost_limit : ℚ) (stats : APIStats)
    (apiResult : Except Unit APIResponse) :
    Except ModelError (String × APIStats) :=
  match apiResult with
  | .error _ =>
      .error (.costLimitExceeded
        ("Context window (" ++ toString meta.max_context ++ " tokens) exceeded"))
  | .ok r =>
      match update_stats meta.cost_per_input_token meta.cost_per_output_token
          total_cost_limit per_instance_cost_limit stats
          r.prompt_tokens r.completion_tokens with
      | (_, .error k) => .error (.costLimitExceeded (costLimitMessage k))
      | (stats', .ok _) => .ok (r.content, stats')

/-! ## Python string primitives

Python strings are sequences of characters; the primitives below are
modelled on the character-list (`String.data`) level so that they can be
reasoned about for arbitrary strings. -/

/-- Python `s.startswith(p)`. -/
def pyStartswith (s p : String) : Bool := p.data.isPrefixOf s.data

/-- Python `s.endswith(p)`. -/
def pyEndswith (s p : String) : Bool := p.data.isSuffixOf s.data

/-- Python `s[n:]`. -/
def pyDropN (s : String) (n : ℕ) : String := ⟨s.data.drop n⟩

/-- Split a character list at every character satisfying `p`, keeping empty
pieces (the behaviour of Python `split(sep)` for a one-character `sep`). -/
def splitAnyAux (p : Char → Bool) : List Char → List Char → List String
  | [], acc => [⟨acc.reverse⟩]
  | c :: cs, acc =>
    if p c then ⟨acc.reverse⟩ :: splitAnyAux p cs []
    else splitAnyAux p cs (c :: acc)

/-- Python `s.split(sep)` for a one-character separator (every separator used
by the embedded code — `":"`, `"\n"`, `"/"`, `"."` — is one character). -/
def pySplitChar (s : String) (sep : Char) : List String :=
  splitAnyAux (fun c => c = sep) s.data []

/-- Python `s.strip()`: remove leading and trailing whitespace. -/
def pyStrip (s : String) : String :=
  ⟨((s.data.dropWhile Char.isWhitespace).reverse.dropWhile Char.isWhitespace).reverse⟩

/-- Python `s.split()`: split on whitespace runs, dropping empty pieces. -/
def pySplitWs (s : String) : List String :=
  (splitAnyAux Char.isWhitespace s.data []).filter (fun t => t ≠ "")

/-! ## Model-name resolution (`BaseModel.__init__`, models.py 74-107) -/

/-- First value bound to a key in an association list; models Python `dict`
lookup for the literal (ordered, duplicate-free) dict displays in the source. -/
def alistLookup {β : Type} (l : List (String × β)) (k : String) : Option β :=
  (l.find? (fun p => p.1 = k)).map (·.2)

/-- The class-level tables of one `BaseModel` subclass: `MODELS`, its
`defaultdict` default factory when there is one (only `OllamaModel.MODELS`,
models.py 543-548), and `SHORTCUTS`. -/
structure ModelTables where
  MODELS : List (String × Metadata)
  modelsDefault : Option Metadata := none
  SHORTCUTS : List (String × String) := []

/-- `self.MODELS[key]`: plain lookup, falling back to the `defaultdict`
default when the class declares one. -/
def selfModelsLookup (t : ModelTables) (k : String) : Option Metadata :=
  match alistLookup t.MODELS k with
  | some m => some m
  | none => t.modelsDefault

/-- Lookup in the merged table
`{**{dest: self.MODELS[src] for dest, src in self.SHORTCUTS.items()}, **self.MODELS}`
(models.py 88-91): entries of `MODELS` override the shortcut-derived ones. -/
def combinedLookup (t : ModelTables) (k : String) : Option Metadata :=
  match alistLookup t.MODELS k with
  | some m => some m
  | none =>
    match alistLookup t.SHORTCUTS k with
    | some src => selfModelsLookup t src
    | none => none

/-- Failure modes of `BaseModel.__init__`: the explicit
`ValueError("Unregistered model ...")` (models.py 107) and the `KeyError` a
failed dict subscript would raise in the prefix branches. -/
inductive ResolveError where
  | unregistered (name : String)
  | keyError


/-- `BaseModel.__init__` name resolution (models.py 74-107): returns the pair
`(api_model, model_metadata)`.  `split(":")[1]` for `ft:` keeps the second
colon-separated field; `name.split("<p>:", 1)[1]` for a name starting with
the prefix `<p>:` is everything after that prefix. -/
def resolveModel (t : ModelTables) (name : String) :
    Except ResolveError (String × Metadata) :=
  let api_model := (alistLookup t.SHORTCUTS name).getD name
  match combinedLookup t name with
  | some m => .ok (api_model, m)
  | none =>
    if pyStartswith name "ft:" then
      let ft_model := ((pySplitChar name ':').getD 1 "")
      match combinedLookup t ft_model with
      | some m => .ok (api_model, m)
      | none => .error .keyError
    else if pyStartswith name "ollama:" then
      let apiId := pyDropN name 7
      match selfModelsLookup t apiId with
      | some m => .ok (apiId, m)
      | none => .error .keyError
    else if pyStartswith name "azure:" then
      let azure_model := pyDropN name 6
      match combinedLookup t azure_model with
      | some m => .ok (api_model, m)
      | none => .error .keyError
    else if pyStartswith name "bedrock:" then
      let apiId := pyDropN name 8
      match combinedLookup t apiId with
      | some m => .ok (apiId, m)
      | none => .error .keyError
    else
      .error (.unregistered name)

/-- `OpenAIModel.MODELS` (models.py 171-212), costs as exact rationals. -/
def openAIMODELS : List (String × Metadata) :=
  [ ("gpt-3.5-turbo-0125", { max_context := 16385, cost_per_input_token := 5 / 10 ^ 7, cost_per_output_token := 15 / 10 ^ 7 })
  , ("gpt-3.5-turbo-1106", { max_context := 16385, cost_per_input_token := 15 / 10 ^ 7, cost_per_output_token := 2 / 10 ^ 6 })
  , ("gpt-3.5-turbo-16k-0613", { max_context := 16385, cost_per_input_token := 15 / 10 ^ 7, cost_per_output_token := 2 / 10 ^ 6 })
  , ("gpt-4-32k-0613", { max_context := 32768, cost_per_input_token := 6 / 10 ^ 5, cost_per_output_token := 12 / 10 ^ 5 })
  , ("gpt-4-0613", { max_context := 8192, cost_per_input_token := 3 / 10 ^ 5, cost_per_output_token := 6 / 10 ^ 5 })
  , ("gpt-4-1106-preview", { max_context := 128000, cost_per_input_token := 1 / 10 ^ 5, cost_per_output_token := 3 / 10 ^ 5 })
  , ("gpt-4-0125-preview", { max_context := 128000, cost_per_input_token := 1 / 10 ^ 5, cost_per_output_token := 3 / 10 ^ 5 })
  , ("gpt-4-turbo-2024-04-09", { max_context := 128000, cost_per_input_token := 1 / 10 ^ 5, cost_per_output_token := 3 / 10 ^ 5 })
  ]

/-- `OpenAIModel.SHORTCUTS` (models.py 214-222). -/
def openAISHORTCUTS : List (String × String) :=
  [ ("gpt3", "gpt-3.5-turbo-1106")
  , ("gpt3-legacy", "gpt-3.5-turbo-16k-0613")
  , ("gpt4", "gpt-4-1106-preview")
  , ("gpt4-legacy", "gpt-4-0613")
  , ("gpt4-0125", "gpt-4-0125-preview")
  , ("gpt3-0125", "gpt-3.5-turbo-0125")
  , ("gpt4-turbo", "gpt-4-turbo-2024-04-09")
  ]

/-- `OpenAIModel` tables. -/
def openAITables : ModelTables :=
  { MODELS := openAIMODELS, SHORTCUTS := openAISHORTCUTS }

/-- `BedrockModel.MODELS` (models.py 353-390). -/
def bedrockMODELS : List (String × Metadata) :=
  [ ("anthropic.claude-instant-v1", { max_context := 100000, cost_per_input_token := 8 / 10 ^ 7, cost_per_output_token := 24 / 10 ^ 7, max_tokens_to_sample := some 4096 })
  , ("anthropic.claude-v2", { max_context := 100000, cost_per_input_token := 8 / 10 ^ 6, cost_per_output_token := 24 / 10 ^ 6, max_tokens_to_sample := some 4096 })
  , ("anthropic.claude-v2:1", { max_context := 100000, cost_per_input_token := 8 / 10 ^ 6, cost_per_output_token := 24 / 10 ^ 6, max_tokens := some 4096 })
  , ("anthropic.claude-3-opus-20240229-v1:0", { max_context := 200000, cost_per_input_token := 15 / 10 ^ 6, cost_per_output_token := 75 / 10 ^ 6, max_tokens := some 4096 })
  , ("anthropic.claude-3-sonnet-20240229-v1:0", { max_context := 200000, cost_per_input_token := 3 / 10 ^ 6, cost_per_output_token := 15 / 10 ^ 6, max_tokens := some 4096 })
  , ("anthropic.claude-3-haiku-20240307-v1:0", { max_context := 200000, cost_per_input_token := 25 / 10 ^ 8, cost_per_output_token := 125 / 10 ^ 8, max_tokens := some 4096 })
  ]

/-- `BedrockModel` tables (no shortcuts). -/
def bedrockTables : ModelTables := { MODELS := bedrockMODELS }

/-- The metadata synthesized by `OllamaModel.MODELS`'s `defaultdict` factory
(models.py 544-548). -/
def ollamaDefaultMetadata : Metadata :=
  { max_context := 128000, cost_per_input_token := 0, cost_per_output_token := 0 }

/-- `OllamaModel` tables: `MODELS` is a `defaultdict` whose plain-dict
snapshot is initially empty; no shortcuts. -/
def ollamaTables : ModelTables :=
  { MODELS := [], modelsDefault := some ollamaDefaultMetadata }

/-! ## The retry wrapper on network backends (models.py 252-257, 339-344,
418-423, 571-576, 668-673) -/

/-- The exception classes relevant to the retry predicate
`retry_if_not_exception_type((CostLimitExceededError, RuntimeError))`:
anything else (tagged transient failures) is retried. -/
inductive QueryError where
  | costLimit
  | runtime
  | transient (tag : ℕ)


/-- Modelled from the spec: `tenacity.retry_if_not_exception_type`
configured with `(CostLimitExceededError, RuntimeError)` — a failure is NOT
retried exactly when it is one of these two classes. -/
def noRetryOn : QueryError → Bool
  | .costLimit => true
  | .runtime => true
  | .transient _ => false

/-- Modelled from the spec: the `tenacity` retry loop with `reraise=True` and
`stop=stop_after_attempt(stop)`, applied to the sequence of attempt
outcomes.  Returns the final outcome and the number of attempts made: a
success or a non-retryable failure stops immediately, and the last allowed
attempt's outcome is re-raised as-is (`reraise=True`). -/
def retryAttempts {α : Type} (attempts : ℕ → Except QueryError α) :
    ℕ → ℕ → Except QueryError α × ℕ
  | k, 0 => (attempts k, k + 1)
  | k, 1 => (attempts k, k + 1)
  | k, n + 2 =>
    match attempts k with
    | .ok a => (.ok a, k + 1)
    | .error e =>
      if noRetryOn e then (.error e, k + 1)
      else retryAttempts attempts (k + 1) (n + 1)

/-- The retry wrapper used (with identical configuration) by every
network-calling backend's `query` (models.py 252-257, 339-344, 418-423,
571-576, 668-673): `stop_after_attempt(3)`. -/
def tenacityQuery {α : Type} (attempts : ℕ → Except QueryError α) :
    Except QueryError α × ℕ :=
  retryAttempts attempts 0 3

/-- Modelled from the spec: `wait_random_exponential(min=1, max=15)` — an
exponentially widening random wait, clamped to the configured window
`[minW, maxW]`; `u` is the random draw scaling the exponential envelope. -/
def waitRandomExponential (minW maxW : ℚ) (attempt : ℕ) (u : ℚ) : ℚ :=
  max minW (min maxW (u * 2 ^ attempt))

/-! ## Command parsing (`sweagent/agent/commands.py`) -/

/-- One value of a command argument's settings dict; the code reads its
`"required"` key (commands.py 132, 171, 212, 218). -/
structure ArgSettings where
  required : Bool


/-- An ordered `arguments` dict: parameter name to settings. -/
abbrev CommandArgs := List (String × ArgSettings)

/-- The `Command` dataclass (commands.py 27-34). -/
structure Command where
  code : String
  name : String
  docstring : Option String := none
  end_name : Option String := none
  arguments : Option CommandArgs := none
  signature : Option String := none


/-- The exceptions command parsing can raise, one constructor per distinct
raise site / Python exception class. -/
inductive ParseError where
  /-- `ValueError` "does not have a .sh extension" (commands.py 80-85) -/
  | badExtension
  /-- `ValueError` "does not contain any commands" (commands.py 88-94) -/
  | noCommands
  /-- `ValueError` "multiple @yaml tags" (commands.py 154-157) -/
  | multipleYaml
  /-- `KeyError` from a failed dict subscript -/
  | keyError
  /-- `IndexError` from running past the end of the line list -/
  | indexError
  /-- failed `assert` (commands.py 162) -/
  | assertionError


/-- The fields the code reads out of a parsed `@yaml` docstring dict
(commands.py 124-128, 163-166): `docstring` is a plain subscript (KeyError
when absent), the rest use `.get(..., None)`. -/
structure DocsDict where
  docstring : Option String := none
  end_name : Option String := none
  arguments : Option CommandArgs := none
  signature : Option String := none

/-- A loader standing for the external `yaml.safe_load`; the embedding is
parameterized by it. -/
abbrev YamlLoader := String → Option DocsDict

/-- Modelled from the spec: the only fact about the external
`yaml.safe_load` that the closed statements below rely on is that an empty
document loads to `None`; this loader returns `None` on every input and is
only ever applied to empty documents in those statements. -/
def yamlLoadEmptyDoc : YamlLoader := fun _ => none

/-- The default-signature loop shared by commands.py 130-135, 168-174 and
211-215: start from `name` and append `` <param>`` or `` [<param>]`` per
declared argument, in order. -/
def argsSignature (name : String) (args : CommandArgs) : String :=
  args.foldl
    (fun sig pa =>
      if pa.2.required then sig ++ " <" ++ pa.1 ++ ">"
      else sig ++ " [<" ++ pa.1 ++ ">]")
    name

/-- `ParseCommandDetailed.get_signature` (commands.py 206-223).  With an
`end_name` and a (string-keyed) `arguments` dict, line 222 evaluates
`cmd.arguments[-1]`, i.e. it subscripts the dict with the integer `-1`,
which is never one of its string keys — a `KeyError`. -/
def get_signature (cmd : Command) : Except ParseError String :=
  match cmd.arguments with
  | none => .ok cmd.name
  | some args =>
    match cmd.end_name with
    | none => .ok (argsSignature cmd.name args)
    | some _ =>
      let _ := argsSignature cmd.name args.dropLast
      .error .keyError

/-- `Path(path).name`: the final path component. -/
def pathName (path : String) : String :=
  (pySplitChar path '/').getLastD path

/-- `Path(path).name.rsplit(".", 1)[0]`: drop the last extension, keep the
rest (commands.py 167). -/
def dropLastExt (s : String) : String :=
  let parts := pySplitChar s '.'
  if parts.length ≤ 1 then s
  else String.intercalate "." parts.dropLast

/-- Index (from `start`) of the first line at or after `start` whose `strip()`
is `"}"` — the closing-brace scan of commands.py 117-119; `none` models the
`IndexError` of running off the end. -/
def findCloseGo : List String → ℕ → Option ℕ
  | [], _ => none
  | l :: ls, j => if pyStrip l = "\x7d" then some j else findCloseGo ls (j + 1)

/-- The scan above, started at index `start` of the full line list. -/
def findClose (lines : List String) (start : ℕ) : Option ℕ :=
  findCloseGo (lines.drop start) start

/-- Build the `Command` appended at commands.py 121-144 from the function
header line, its collected body, and the accumulated `# `-docs (already run
through the yaml loader). -/
def bashCommandOfDocs (name code : String) (d : Option DocsDict) :
    Except ParseError Command :=
  match d with
  | none => .ok { code := code, name := name, signature := some name }
  | some dd =>
    match dd.docstring with
    | none => .error .keyError
    | some ds =>
      let signature :=
        match dd.signature with
        | some s => s
        | none =>
          match dd.arguments with
          | some args => argsSignature name args
          | none => name
      .ok { code := code, name := name, docstring := some ds,
            end_name := dd.end_name, arguments := dd.arguments,
            signature := some signature }

/-- The main loop of `ParseCommandBash.parse_bash_functions`
(commands.py 98-146), fuel-based: each iteration advances `idx` by at least
one, so `lines.length + 1` fuel always suffices.  A `# `-prefixed line
accumulates docs (commands.py 112-113); a line whose `strip()` ends in
`"() {"` starts a function whose body is concatenated (without separators,
as in the source) up to the next line that strips to `"}"`; the outer loop
resumes at that closing line.  The function name is
`line.split()[0][:-2]`. -/
def parseBashAux (yamlLoad : YamlLoader) (lines : List String) :
    ℕ → ℕ → List String → List Command → Except ParseError (List Command)
  | 0, _, _, commands => .ok commands.reverse
  | fuel + 1, idx, docs, commands =>
    match lines.get? idx with
    | none => .ok commands.reverse
    | some line =>
      if pyStartswith line "# " then
        parseBashAux yamlLoad lines fuel (idx + 1) (docs ++ [pyDropN line 2]) commands
      else if pyEndswith (pyStrip line) "() \x7b" then
        let name := ((pySplitWs line).headD "").dropRight 2
        match findClose lines (idx + 1) with
        | none => .error .indexError
        | some j =>
          let code := line ++ String.join ((lines.drop (idx + 1)).take (j - (idx + 1)))
            ++ ((lines.get? j).getD "")
          let d := yamlLoad ((String.intercalate "\n" docs).replace "@yaml" "")
          match bashCommandOfDocs name code d with
          | .error e => .error e
          | .ok cmd => parseBashAux yamlLoad lines fuel j [] (cmd :: commands)
      else
        parseBashAux yamlLoad lines fuel (idx + 1) docs commands

/-- `ParseCommandBash.parse_bash_functions` (commands.py 98-146). -/
def parse_bash_functions (yamlLoad : YamlLoader) (contents : String) :
    Except ParseError (List Command) :=
  let lines := pySplitChar contents '\n'
  parseBashAux yamlLoad lines (lines.length + 1) 0 [] []

/-- `dropWhile` never lengthens a list (used only for termination). -/
theorem dropWhile_length_le {α : Type} (p : α → Bool) (l : List α) :
    (l.dropWhile p).length ≤ l.length := by
  induction l with
  | nil => simp
  | cons a l ih =>
    rw [List.dropWhile]
    cases p a
    · simp
    · simp
      omega

/-- A line matching `^#\s*@yaml\s*$`: the header of an `@yaml` comment
block. -/
def isYamlHeaderLine (l : String) : Bool :=
  pyStartswith l "#" && pyStrip (pyDropN l 1) = "@yaml"

/-- The blocks found by `re.findall(r'^#\s*@yaml\s*\n^#.*(?:\n#.*)*', ...)`
(commands.py 149-150) on a line-structured file: each is an `@yaml` header
line immediately followed by a maximal run of `#`-prefixed lines. -/
def findYamlBlocks : List String → List (List String)
  | [] => []
  | l :: ls =>
    if isYamlHeaderLine l && ((ls.head?.map (fun n => pyStartswith n "#")).getD false) then
      (l :: ls.takeWhile (fun n => pyStartswith n "#"))
        :: findYamlBlocks (ls.dropWhile (fun n => pyStartswith n "#"))
    else
      findYamlBlocks ls
termination_by ls => ls.length
decreasing_by
  · simpa using Nat.lt_succ_of_le (dropWhile_length_le _ _)
  · simp [Nat.lt_succ_self]

/-- `ParseCommandBash.parse_script` (commands.py 148-183): zero blocks yield
zero commands; more than one is an error; otherwise the block is stripped of
its leading `#`s, loaded as yaml (`assert docs_dict is not None`,
commands.py 162), and one command is built from the whole file, named after
the file with its extension dropped. -/
def parse_script (yamlLoad : YamlLoader) (path contents : String) :
    Except ParseError (List Command) :=
  match findYamlBlocks (pySplitChar contents '\n') with
  | [] => .ok []
  | [block] =>
    let yamlContent := String.intercalate "\n"
      (block.map (fun l => if pyStartswith l "#" then pyDropN l 1 else l))
    match yamlLoad (yamlContent.replace "@yaml" "") with
    | none => .error .assertionError
    | some dd =>
      match dd.docstring with
      | none => .error .keyError
      | some ds =>
        let name := dropLastExt (pathName path)
        let signature :=
          match dd.signature with
          | some s => some s
          | none =>
            match dd.arguments with
            | some args => some (argsSignature name args)
            | none => none
        .ok [{ code := contents, name := name, docstring := some ds,
               end_name := dd.end_name, arguments := dd.arguments,
               signature := signature }]
  | _ => .error .multipleYaml

/-- `ParseCommandBash.parse_command_file` (commands.py 74-96): a file whose
stripped contents start with `#!` goes through `parse_script`, and the
"contains no commands" error is suppressed for underscore-named files;
otherwise a file that neither ends in `.sh` nor is underscore-named is
rejected, and the rest go through `parse_bash_functions` (returned directly,
with no zero-command check). -/
def parse_command_file (yamlLoad : YamlLoader) (path contents : String) :
    Except ParseError (List Command) :=
  if pyStartswith (pyStrip contents) "#!" then
    match parse_script yamlLoad path contents with
    | .error e => .error e
    | .ok commands =>
      if commands.length = 0 && !(pyStartswith (pathName path) "_") then
        .error .noCommands
      else
        .ok commands
  else
    if !(pyEndswith path ".sh") && !(pyStartswith (pathName path) "_") then
      .error .badExtension
    else
      parse_bash_functions yamlLoad contents

/-! ## `Main.should_skip` (run.py 395-420) -/

/-- Modelled from the spec: Python's `re.match(pattern, s)` tries the pattern
at the start of the string only and succeeds as soon as some prefix of `s`
is matched — the pattern need not cover all of `s`.  Patterns are abstract
regular expressions; `rmatch` is Mathlib's verified matcher. -/
def pyMatch (p : RegularExpression Char) (s : String) : Bool :=
  (List.range (s.toList.length + 1)).any fun n => p.rmatch (s.toList.take n)

/-- The part of an existing trajectory file that `should_skip` reads:
`data["info"].get("exit_status", None)` (run.py 412). -/
structure TrajData where
  exit_status : Option String


/-- `Main.should_skip` (run.py 395-420).  The file system is explicit: `traj`
is the trajectory file for this instance if one exists, and the returned
pair is (skip?, trajectory file afterwards) — `os.remove` (run.py 416)
leaves `none`. -/
def should_skip (instance_filter : RegularExpression Char) (skip_existing : Bool)
    (traj : Option TrajData) (instance_id : String) : Bool × Option TrajData :=
  if !pyMatch instance_filter instance_id then
    (true, traj)
  else if !skip_existing then
    (false, traj)
  else
    match traj with
    | none => (false, none)
    | some t =>
      if t.exit_status = some "early_exit" ∨ t.exit_status = none then
        (false, none)
      else
        (true, some t)

/-! ## `OpenPRHook.should_open_pr` (run.py 240-275) -/

/-- The issue fields the hook inspects (run.py 253-261).  `assignee` is a
user object or `None`; its truthiness is its presence. -/
structure IssueData where
  state : String
  assignee : Option String
  locked : Bool


/-- Everything `should_open_pr` obtains from GitHub for a data path: either
`InvalidGithubURL` (run.py 250), or the live issue data together with the
issue's associated commit URLs (run.py 262-263; both fetches need the same
parsed URL, so they succeed together). -/
abbrev GhFetch := Except Unit (IssueData × List String)

/-- Python truthiness of `info.get("submission")`: absent/`None` or the empty
string are falsy (run.py 242). -/
def truthyStr : Option String → Bool
  | none => false
  | some s => s ≠ ""

/-- `OpenPRHook.should_open_pr` (run.py 240-275) as a function of the run
`info` fields, the GitHub fetch outcome and the
`skip_if_commits_reference_issue` switch. -/
def should_open_pr (skip_if_commits_reference_issue : Bool)
    (submission : Option String) (exit_status : String) (gh : GhFetch) : Bool :=
  if !truthyStr submission then false
  else if exit_status ≠ "submitted" then false
  else
    match gh with
    | .error _ => false
    | .ok (issue, associated_commits) =>
      if issue.state ≠ "open" then false
      else if issue.assignee.isSome then false
      else if issue.locked then false
      else if associated_commits ≠ [] && skip_if_commits_reference_issue then false
      else true

/-! ## Claims -/

/-- C1: after every successful query, `update_stats` adds the input tokens to
`tokens_sent`, the output tokens to `tokens_received`, 1 to `api_calls` and
`i × cost_per_input_token + o × cost_per_output_token` to both
`instance_cost` and `total_cost`; it then raises a cost-limit-exceeded
condition exactly when a positive total-cost limit has been reached by
`total_cost` or a positive per-instance limit has been reached by
`instance_cost` (the total-cost check firing first), and a limit configured
as 0 never triggers the corresponding failure (`0 < 0` is false). -/
theorem update_stats_spec (cpi cpo tLim iLim : ℚ) (s : APIStats) (i o : ℕ) :
    (update_stats cpi cpo tLim iLim s i o).1 =
      { total_cost := s.total_cost + (cpi * i + cpo * o)
        instance_cost := s.instance_cost + (cpi * i + cpo * o)
        tokens_sent := s.tokens_sent + i
        tokens_received := s.tokens_received + o
        api_calls := s.api_calls + 1 } ∧
    ((update_stats cpi cpo tLim iLim s i o).2 = .error .total ↔
      0 < tLim ∧ tLim ≤ s.total_cost + (cpi * i + cpo * o)) ∧
    ((update_stats cpi cpo tLim iLim s i o).2 = .error .perInstance ↔
      ¬(0 < tLim ∧ tLim ≤ s.total_cost + (cpi * i + cpo * o)) ∧
        (0 < iLim ∧ iLim ≤ s.instance_cost + (cpi * i + cpo * o))) ∧
    ((update_stats cpi cpo tLim iLim s i o).2 = .ok (cpi * i + cpo * o) ↔
      ¬(0 < tLim ∧ tLim ≤ s.total_cost + (cpi * i + cpo * o)) ∧
        ¬(0 < iLim ∧ iLim ≤ s.instance_cost + (cpi * i + cpo * o))) := by
  simp only [update_stats]
  split_ifs with h1 h2 <;> simp_all

/-- C9: `reset_stats` with no replacement zeroes `instance_cost`,
`tokens_sent`, `tokens_received` and `api_calls` and keeps exactly
`total_cost`; with a replacement snapshot it adopts every field of the
snapshot. -/
theorem reset_stats_spec (s o : APIStats) :
    reset_stats s none =
      { total_cost := s.total_cost, instance_cost := 0, tokens_sent := 0,
        tokens_received := 0, api_calls := 0 } ∧
    reset_stats s (some o) = o :=
  ⟨rfl, rfl⟩

/-- C2 (divergence witness): when the underlying API call of
`OpenAIModel.query` fails with a request-too-large `BadRequestError`, the
error raised to the caller is a `CostLimitExceededError` (whose message
mentions the max-context value), NOT the dedicated
`ContextWindowExceededError` type — concretely so for the `gpt-4-0613`
metadata from `OpenAIModel.MODELS`. -/
theorem openai_badrequest_raises_cost_limit_error :
    (∀ (meta : Metadata) (tLim iLim : ℚ) (s : APIStats),
      openAIQueryStep meta tLim iLim s (.error ()) =
        .error (.costLimitExceeded
          ("Context window (" ++ toString meta.max_context ++ " tokens) exceeded")) ∧
      ∀ msg, openAIQueryStep meta tLim iLim s (.error ()) ≠
        .error (.contextWindowExceeded msg)) ∧
    combinedLookup openAITables "gpt-4-0613" =
      some { max_context := 8192, cost_per_input_token := 3 / 10 ^ 5,
             cost_per_output_token := 6 / 10 ^ 5 } ∧
    openAIQueryStep
      { max_context := 8192, cost_per_input_token := 3 / 10 ^ 5,
        cost_per_output_token := 6 / 10 ^ 5 } 0 3 {} (.error ()) =
      .error (.costLimitExceeded "Context window (8192 tokens) exceeded") := by
  refine ⟨fun meta tLim iLim s => ⟨rfl, fun msg => ?_⟩,
    by simp [combinedLookup, alistLookup, openAITables, openAIMODELS], rfl⟩
  simp [openAIQueryStep]

/-- Witness instantiating `openai_badrequest_raises_cost_limit_error` at the
`gpt-4-0613` metadata: the raised error differs from every
`ContextWindowExceededError`. -/
theorem openai_badrequest_witness :
    openAIQueryStep
      { max_context := 8192, cost_per_input_token := 3 / 10 ^ 5,
        cost_per_output_token := 6 / 10 ^ 5 } 0 3 {} (.error ()) ≠
      .error (.contextWindowExceeded "Context window (8192 tokens) exceeded") :=
  (openai_badrequest_raises_cost_limit_error.1 _ 0 3 {}).2 _

/-- C4: model-name resolution at construction. `ft:<base>[:suffix]` resolves
to the metadata of `<base>` (e.g. `ft:gpt-4-0613:anything`); `ollama:<id>`
resolves for every `id` to the synthesized zero-cost 128000-context
metadata; `azure:<id>` and `bedrock:<id>` resolve to the canonical table
entry for `<id>`; an alias is substituted by its canonical name (with that
model's metadata); and a name matching no convention and absent from the
combined alias+canonical table fails construction with the
"Unregistered model" configuration error. -/
theorem model_name_resolution :
    resolveModel openAITables "ft:gpt-4-0613:anything" =
      .ok ("ft:gpt-4-0613:anything",
        { max_context := 8192, cost_per_input_token := 3 / 10 ^ 5,
          cost_per_output_token := 6 / 10 ^ 5 }) ∧
    (∀ id : String, resolveModel ollamaTables ("ollama:" ++ id) =
      .ok (id, ollamaDefaultMetadata)) ∧
    resolveModel openAITables "azure:gpt-4-0613" =
      .ok ("azure:gpt-4-0613",
        { max_context := 8192, cost_per_input_token := 3 / 10 ^ 5,
          cost_per_output_token := 6 / 10 ^ 5 }) ∧
    resolveModel bedrockTables "bedrock:anthropic.claude-v2" =
      .ok ("anthropic.claude-v2",
        { max_context := 100000, cost_per_input_token := 8 / 10 ^ 6,
          cost_per_output_token := 24 / 10 ^ 6, max_tokens_to_sample := some 4096 }) ∧
    resolveModel openAITables "gpt4" =
      .ok ("gpt-4-1106-preview",
        { max_context := 128000, cost_per_input_token := 1 / 10 ^ 5,
          cost_per_output_token := 3 / 10 ^ 5 }) ∧
    (∀ (t : ModelTables) (name : String),
      combinedLookup t name = none →
      pyStartswith name "ft:" = false →
      pyStartswith name "ollama:" = false →
      pyStartswith name "azure:" = false →
      pyStartswith name "bedrock:" = false →
      resolveModel t name = .error (.unregistered name)) := by
  refine ⟨rfl, fun id => ?_, rfl, rfl, rfl, fun t name h0 h1 h2 h3 h4 => ?_⟩
  · unfold resolveModel
    simp [combinedLookup, alistLookup, ollamaTables, selfModelsLookup,
      pyStartswith, pyDropN, String.data_append, List.isPrefixOf]
  · simp [resolveModel, h0, h1, h2, h3, h4]

/-- Witness for the hypotheses of `model_name_resolution`: a name matching
no convention and absent from the table is rejected. -/
theorem model_name_resolution_witness :
    resolveModel openAITables "mystery-model" =
      .error (.unregistered "mystery-model") :=
  model_name_resolution.2.2.2.2.2 openAITables "mystery-model" rfl rfl rfl rfl rfl

/-- C7: the retry wrapper shared by all network-calling backends makes at
most 3 attempts; a cost-limit-exceeded or runtime failure on the first
attempt propagates immediately (one attempt, no retry); any other failure is
retried, and after the final allowed attempt the final attempt's own outcome
(in particular its error) is re-raised unchanged; and every configured
backoff wait lies between 1 and 15 seconds. -/
theorem retry_policy_spec :
    (∀ (α : Type) (attempts : ℕ → Except QueryError α),
      (tenacityQuery attempts).2 ≤ 3) ∧
    (∀ (α : Type) (attempts : ℕ → Except QueryError α),
      attempts 0 = .error .costLimit → tenacityQuery attempts = (.error .costLimit, 1)) ∧
    (∀ (α : Type) (attempts : ℕ → Except QueryError α),
      attempts 0 = .error .runtime → tenacityQuery attempts = (.error .runtime, 1)) ∧
    (∀ (α : Type) (attempts : ℕ → Except QueryError α) (t0 t1 : ℕ),
      attempts 0 = .error (.transient t0) → attempts 1 = .error (.transient t1) →
      tenacityQuery attempts = (attempts 2, 3)) ∧
    (∀ (attempt : ℕ) (u : ℚ),
      1 ≤ waitRandomExponential 1 15 attempt u ∧
      waitRandomExponential 1 15 attempt u ≤ 15) := by
  refine ⟨fun α attempts => ?_, fun α attempts h0 => ?_, fun α attempts h0 => ?_,
    fun α attempts t0 t1 h0 h1 => ?_, fun attempt u => ?_⟩
  · rcases h0 : attempts 0 with e | a
    · rcases hr : noRetryOn e
      · rcases h1 : attempts 1 with e1 | a1
        · rcases hr1 : noRetryOn e1 <;>
            simp [tenacityQuery, retryAttempts, h0, h1, hr, hr1]
        · simp [tenacityQuery, retryAttempts, h0, h1, hr]
      · simp [tenacityQuery, retryAttempts, h0, hr]
    · simp [tenacityQuery, retryAttempts, h0]
  · simp [tenacityQuery, retryAttempts, h0, noRetryOn]
  · simp [tenacityQuery, retryAttempts, h0, noRetryOn]
  · simp [tenacityQuery, retryAttempts, h0, h1, noRetryOn]
  · constructor
    · exact le_max_left _ _
    · exact max_le (by norm_num) (min_le_left _ _)

/-- Witness for the hypotheses of `retry_policy_spec`: a cost-limit failure
and a runtime failure stop after one attempt; a persistent transient failure
is retried and re-raised after the third attempt. -/
theorem retry_policy_spec_witness :
    tenacityQuery (fun _ => (.error .costLimit : Except QueryError String)) =
      (.error .costLimit, 1) ∧
    tenacityQuery (fun _ => (.error .runtime : Except QueryError String)) =
      (.error .runtime, 1) ∧
    tenacityQuery (fun _ => (.error (.transient 7) : Except QueryError String)) =
      (.error (.transient 7), 3) :=
  ⟨retry_policy_spec.2.1 String _ rfl,
   retry_policy_spec.2.2.1 String _ rfl,
   retry_policy_spec.2.2.2.1 String (fun _ => .error (.transient 7)) 7 7 rfl rfl⟩

/-- C6: `should_open_pr` returns `True` exactly when a submission is present,
the exit status is exactly `submitted`, the data path resolves to a live
GitHub issue that is open, unassigned and unlocked (an invalid URL yields
`False`, not an exception — the function is total), and either there are no
commits associated with the issue or the
`skip_if_commits_reference_issue` switch is disabled. -/
theorem should_open_pr_spec (skip_if_commits_reference_issue : Bool)
    (submission : Option String) (exit_status : String) (gh : GhFetch) :
    should_open_pr skip_if_commits_reference_issue submission exit_status gh = true ↔
      (truthyStr submission = true ∧ exit_status = "submitted" ∧
       ∃ (issue : IssueData) (commits : List String),
         gh = .ok (issue, commits) ∧ issue.state = "open" ∧
         issue.assignee = none ∧ issue.locked = false ∧
         (commits = [] ∨ skip_if_commits_reference_issue = false)) := by
  rcases gh with e | ⟨issue, commits⟩
  · simp [should_open_pr]
  · simp [should_open_pr]
    exact fun _ _ => ⟨fun h => ⟨issue, commits, ⟨rfl, rfl⟩, h⟩,
      by rintro ⟨i, c, ⟨rfl, rfl⟩, h⟩; exact h⟩

/-- C3: `should_skip` skips (True) any instance whose id the filter does not
match; with the filter matching and `skip_existing` enabled, an existing
trajectory whose recorded exit status is absent or `early_exit` is deleted
and the instance re-run (False), while any other recorded status skips the
instance without deleting; with `skip_existing` disabled the instance is
never skipped because of an existing trajectory. -/
theorem should_skip_spec (p : RegularExpression Char) (skip_existing : Bool)
    (traj : Option TrajData) (id : String) (t : TrajData) :
    (pyMatch p id = false → should_skip p skip_existing traj id = (true, traj)) ∧
    (pyMatch p id = true → (t.exit_status = none ∨ t.exit_status = some "early_exit") →
      should_skip p true (some t) id = (false, none)) ∧
    (pyMatch p id = true → t.exit_status ≠ none → t.exit_status ≠ some "early_exit" →
      should_skip p true (some t) id = (true, some t)) ∧
    (pyMatch p id = true → should_skip p false traj id = (false, traj)) := by
  refine ⟨fun h => ?_, fun h h1 => ?_, fun h h1 h2 => ?_, fun h => ?_⟩
  · simp [should_skip, h]
  · rcases h1 with h1 | h1 <;> simp [should_skip, h, h1]
  · simp [should_skip, h, h1, h2]
  · simp [should_skip, h]

/-- Witness for the hypotheses of `should_skip_spec`, one concrete instance
per case (`ε` matches the empty prefix of every id, `char 'z'` matches no
prefix of `"ab"`). -/
theorem should_skip_spec_witness :
    should_skip (RegularExpression.char 'z') false none "ab" = (true, none) ∧
    should_skip RegularExpression.epsilon true (some ⟨none⟩) "i1" = (false, none) ∧
    should_skip RegularExpression.epsilon true (some ⟨some "submitted"⟩) "i1" =
      (true, some ⟨some "submitted"⟩) ∧
    should_skip RegularExpression.epsilon false none "i1" = (false, none) :=
  ⟨(should_skip_spec _ false none "ab" ⟨none⟩).1 (by decide),
   (should_skip_spec _ true (some ⟨none⟩) "i1" ⟨none⟩).2.1 (by decide) (Or.inl rfl),
   (should_skip_spec _ true (some ⟨some "submitted"⟩) "i1" ⟨some "submitted"⟩).2.2.1
     (by decide) (by simp) (by simp),
   (should_skip_spec _ false none "i1" ⟨none⟩).2.2.2 (by decide)⟩

/-- C10: the instance filter is applied with `re.match` semantics — it
succeeds exactly when some prefix of the instance id (not necessarily the
whole id) is in the pattern's language, i.e. it is anchored only at the
start — and a non-matching id is skipped regardless of `skip_existing` and
of any existing trajectory. -/
theorem should_skip_filter_anchored (p : RegularExpression Char)
    (skip_existing : Bool) (traj : Option TrajData) (id : String) :
    (pyMatch p id = true ↔ ∃ l, l <+: id.toList ∧ l ∈ p.matches') ∧
    (pyMatch p id = false → should_skip p skip_existing traj id = (true, traj)) := by
  constructor
  · unfold pyMatch
    rw [List.any_eq_true]
    constructor
    · rintro ⟨n, _, hm⟩
      exact ⟨id.toList.take n, List.take_prefix n _,
        (RegularExpression.rmatch_iff_matches' _ _).1 hm⟩
    · rintro ⟨l, hpre, hl⟩
      refine ⟨l.length, List.mem_range.2 (Nat.lt_succ_of_le hpre.length_le), ?_⟩
      rw [← List.prefix_iff_eq_take.1 hpre]
      exact (RegularExpression.rmatch_iff_matches' _ _).2 hl
  · intro h
    simp [should_skip, h]

/-- Witness for the hypothesis of `should_skip_filter_anchored`: an id with
no matching prefix is skipped even with `skip_existing` disabled; and (via
the equivalence) a strict-prefix match already passes the filter. -/
theorem should_skip_filter_anchored_witness :
    should_skip (RegularExpression.char 'q') false none "xy" = (true, none) ∧
    pyMatch (RegularExpression.char 'a') "ab" = true :=
  ⟨(should_skip_filter_anchored (RegularExpression.char 'q') false none "xy").2
     (by decide),
   (should_skip_filter_anchored (RegularExpression.char 'a') false none "ab").1.mpr
     ⟨['a'], by decide, by simp [RegularExpression.matches']; rfl⟩⟩

/-- The `edit`-style multi-line command of the C5 failing input: an
`end_name` terminator and two declared (string-keyed) arguments. -/
def editCommand : Command :=
  { code := "edit() \x7b\n\x7d", name := "edit", end_name := some "end_of_edit",
    arguments := some [("start_line", ⟨true⟩), ("replacement_text", ⟨true⟩)] }

/-- C5 (divergence witness): the default signature of a command with a
required and an optional argument is `name <arg1> [<arg2>]`, as claimed;
but for a command with an `end_name` and declared arguments,
`ParseCommandDetailed.get_signature` raises a `KeyError` (its line 222
subscripts the string-keyed `arguments` dict with the integer `-1`) instead
of appending the last argument's key and the terminator. -/
theorem get_signature_end_name_keyerror :
    argsSignature "name" [("arg1", ⟨true⟩), ("arg2", ⟨false⟩)] =
      "name <arg1> [<arg2>]" ∧
    get_signature editCommand = .error .keyError :=
  ⟨rfl, rfl⟩

/-- C8 counterexample: an underscore-named file does NOT always yield zero
commands — without a shebang it is parsed by `parse_bash_functions`, whose
results are returned; the file `_x` containing one bash function yields
that one command. -/
theorem parse_command_file_underscore_counterexample :
    parse_command_file yamlLoadEmptyDoc "_x" "foo() \x7b\n\x7d" =
      .ok [{ code := "foo() \x7b\x7d", name := "foo", signature := some "foo" }] ∧
    parse_command_file yamlLoadEmptyDoc "_x" "foo() \x7b\n\x7d" ≠ .ok [] :=
  ⟨rfl, fun hcontra => List.noConfusion (Except.ok.inj hcontra)⟩

/-- `bashCommandOfDocs` can only raise `KeyError`. -/
theorem bashCommandOfDocs_error_cases (name code : String) (d : Option DocsDict)
    (e : ParseError) :
    bashCommandOfDocs name code d = .error e → e = .keyError := by
  unfold bashCommandOfDocs
  rcases d with _ | dd
  · simp
  · rcases hd : dd.docstring with _ | ds
    · simp [hd]
      exact fun h => h.symm
    · simp [hd]

/-- `parse_bash_functions` can only raise `IndexError` or `KeyError` — in
particular never the two validation `ValueError`s of `parse_command_file`. -/
theorem parseBashAux_error_cases (y : YamlLoader) (lines : List String) :
    ∀ (fuel idx : ℕ) (docs : List String) (cmds : List Command) (e : ParseError),
      parseBashAux y lines fuel idx docs cmds = .error e →
      e = .indexError ∨ e = .keyError := by
  intro fuel
  induction fuel with
  | zero =>
    intro idx docs cmds e h
    simp [parseBashAux] at h
  | succ n ih =>
    intro idx docs cmds e h
    rw [parseBashAux] at h
    split at h
    · simp at h
    · split at h
      · exact ih _ _ _ _ h
      · split at h
        · split at h
          · simp at h
            left
            exact h.symm
          · simp only [] at h
            split at h
            · next e' heq =>
                injection h with h'
                subst h'
                right
                exact bashCommandOfDocs_error_cases _ _ _ _ heq
            · exact ih _ _ _ _ h
        · exact ih _ _ _ _ h

/-- `parse_script` can only raise the multiple-`@yaml` `ValueError`, the
`AssertionError`, or a `KeyError`. -/
theorem parse_script_error_cases (y : YamlLoader) (path contents : String)
    (e : ParseError) :
    parse_script y path contents = .error e →
    e = .multipleYaml ∨ e = .assertionError ∨ e = .keyError := by
  unfold parse_script
  split
  · simp
  · simp only []
    split
    · simp
      exact fun h => Or.inr (Or.inl h.symm)
    · split
      · simp
        exact fun h => Or.inr (Or.inr h.symm)
      · simp
  · simp
    exact fun h => Or.inl h.symm

/-- C8 (amended): an underscore-named file is exempt from both validation
errors of `parse_command_file` (the missing-`.sh`-extension rejection and
the contains-no-commands rejection), and its parse result is returned
as-is: the raw `parse_bash_functions` result without a shebang, the raw
`parse_script` result with one — so a file that defines no commands yields
zero commands silently, while commands it does define are returned. -/
theorem parse_command_file_underscore_ok (yamlLoad : YamlLoader)
    (path contents : String)
    (hu : pyStartswith (pathName path) "_" = true) :
    parse_command_file yamlLoad path contents ≠ .error .badExtension ∧
    parse_command_file yamlLoad path contents ≠ .error .noCommands ∧
    (pyStartswith (pyStrip contents) "#!" = false →
      parse_command_file yamlLoad path contents =
        parse_bash_functions yamlLoad contents) ∧
    (pyStartswith (pyStrip contents) "#!" = true →
      parse_command_file yamlLoad path contents =
        parse_script yamlLoad path contents) := by
  unfold parse_command_file
  cases hsb : pyStartswith (pyStrip contents) "#!"
  · simp [hsb, hu, parse_bash_functions]
    constructor
    · intro hcontra
      rcases parseBashAux_error_cases yamlLoad _ _ _ _ _ _ hcontra with h | h <;>
        simp at h
    · intro hcontra
      rcases parseBashAux_error_cases yamlLoad _ _ _ _ _ _ hcontra with h | h <;>
        simp at h
  · simp [hsb, hu]
    cases hps : parse_script yamlLoad path contents
    · simp
      constructor
      · intro hcontra
        subst hcontra
        rcases parse_script_error_cases yamlLoad path contents _ hps with h | h | h <;>
          simp at h
      · intro hcontra
        subst hcontra
        rcases parse_script_error_cases yamlLoad path contents _ hps with h | h | h <;>
          simp at h
    · simp

/-- Witness for the hypothesis of `parse_command_file_underscore_ok`: the
underscore file `_utils.sh` with non-command contents is not rejected and
parses to zero commands. -/
theorem parse_command_file_underscore_ok_witness :
    parse_command_file yamlLoadEmptyDoc "_utils.sh" "x=1" ≠ .error .badExtension ∧
    parse_command_file yamlLoadEmptyDoc "_utils.sh" "x=1" ≠ .error .noCommands ∧
    parse_command_file yamlLoadEmptyDoc "_utils.sh" "x=1" = .ok [] := by
  have h := parse_command_file_underscore_ok yamlLoadEmptyDoc "_utils.sh" "x=1" (by decide)
  exact ⟨h.1, h.2.1, by rw [h.2.2.1 (by decide)]; rfl⟩

end SweAgent
